import Mathlib

/-!
Verification development for the auction-data generator
(`scripts/generate_auction_data.py`, namespace `AuctionGen`) and its
database-seeding variant (`scripts/generate_mock_auction_data.py`,
namespace `AuctionGen.Mock`).

Modelling conventions, fixed once for the whole file:

* Dates are day offsets from 2025-08-01 (a Friday, `datetime.weekday() = 4`);
  `datetime(2025,12,31)` is offset 152, Thanksgiving (2025-11-27) is 118 and
  Christmas (2025-12-25) is 146.  Python's `weekday()` becomes
  `(4 + d) % 7`, so Tuesday/Wednesday/Thursday are 1/2/3 exactly as in the
  scripts' comments.
* The pseudo-random source (Python's seeded `random` module) is modelled as a
  stream of naturals together with a position; every primitive consumes one
  stream value.  `random.randint(a, b)` reduces the value into `[a, b]` via
  `a + n % (b + 1 - a)`; `random.random()` maps it to the rational
  `(n % 2^53) / 2^53 ∈ [0, 1)` (CPython's `random()` returns a 53-bit
  uniform); `random.choice` / per-element `random.choices` pick index
  `n % len`.  Weighted `random.choices(pop, weights, k=1)` bisects the
  cumulative weights at `random() * total`, modelled by `pickCum`.
* Float literals of the scripts (`0.10`, `0.60`, ...) are modelled as the
  rationals they denote.  All `int(x * c)` price computations of the scripts
  were checked to agree with the rational floor on every reachable input
  (hammer prices up to 50000, the four category price minima), so
  `int(x * c)` is embedded as `⌊x * c⌋₊`.
-/

namespace AuctionGen

/-- State of the single seedable pseudo-random source: an abstract stream of
naturals (determined by the seed) and the number of values consumed so far. -/
structure RState where
  stream : Nat → Nat
  pos : Nat

/-- Consume one value from the random source. -/
def rdraw (s : RState) : Nat × RState :=
  (s.stream s.pos, ⟨s.stream, s.pos + 1⟩)

/-- Model of `random.randint(a, b)`: one draw, reduced into `[a, b]`. -/
def randint (a b : Nat) (s : RState) : Nat × RState :=
  let p := rdraw s
  (a + p.1 % (b + 1 - a), p.2)

/-- Model of `random.random()`: a rational in `[0, 1)` with denominator
`2 ^ 53` (CPython produces 53-bit uniforms). -/
def randFloat (s : RState) : ℚ × RState :=
  let p := rdraw s
  (((p.1 % 2 ^ 53 : ℕ) : ℚ) / 2 ^ 53, p.2)

/-- Model of `random.choice(l)` (and of each element pick of an unweighted
`random.choices`): one draw, index `n % l.length`.  On the empty list (a
fatal misconfiguration in the script, per the spec) it returns `default`. -/
def rchoice {α : Type} [Inhabited α] (l : List α) (s : RState) : α × RState :=
  let p := rdraw s
  (l.getD (p.1 % l.length) default, p.2)

/-- Cumulative-weight selection: first entry whose running total exceeds the
key, exactly `bisect.bisect(cum_weights, key)` as used by `random.choices`. -/
def pickCum {α : Type} [Inhabited α] : List (α × ℚ) → ℚ → α
  | [], _ => default
  | (a, w) :: rest, t => if t < w then a else pickCum rest (t - w)

/-- Total of a weight table. -/
def totalW {α : Type} (ws : List (α × ℚ)) : ℚ := (ws.map Prod.snd).sum

/-- Model of `random.choices(population, weights=..., k=1)[0]`: draw a unit
uniform, scale by the total weight, select by cumulative bisection. -/
def choicesW {α : Type} [Inhabited α] (ws : List (α × ℚ)) (s : RState) : α × RState :=
  let p := randFloat s
  (pickCum ws (p.1 * totalW ws), p.2)

/-- Python `date.weekday()` for our day offsets (2025-08-01 is a Friday, 4). -/
def weekdayOf (d : ℕ) : ℕ := (4 + d) % 7

/-- Holidays skipped by `generate_auction_dates`: Thanksgiving 2025-11-27
(offset 118) and Christmas 2025-12-25 (offset 146). -/
def holidays : List ℕ := [118, 146]

/-- Model of `generate_auction_dates()` in `generate_auction_data.py`:
every day from 2025-08-01 (offset 0) through 2025-12-31 (offset 152) whose
weekday is Tue/Wed/Thu and which is not a holiday, in iteration order. -/
def generate_auction_dates : List ℕ :=
  (List.range 153).filter fun d =>
    (weekdayOf d == 1 || weekdayOf d == 2 || weekdayOf d == 3) && !(holidays.contains d)

/-- Model of `get_week_number(date)`: `(date - 2025-08-01).days // 7 + 1`. -/
def get_week_number (d : ℕ) : ℕ := d / 7 + 1

/-- Month of a day offset (Aug=31, Sep=30, Oct=31, Nov=30, Dec days). -/
def month_of (d : ℕ) : ℕ :=
  if d < 31 then 8 else if d < 61 then 9 else if d < 92 then 10
  else if d < 122 then 11 else 12

/-- Model of `items_per_day(date)`. -/
def items_per_day (date : ℕ) (s : RState) : ℕ × RState :=
  if get_week_number date = 15 then randint 180 220 s
  else if month_of date = 12 then randint 750 900 s
  else randint 280 350 s

/-- Fee schedule `FEE_TYPES`. -/
def FEE_TYPES : List (String × ℕ) :=
  [("Seller Service Fee", 200), ("Lot Fee", 150), ("Power Washing", 225), ("Decal Removal", 100)]

/-- Dictionary access `FEE_TYPES[t]`. -/
def feeAmount (t : String) : ℕ := (FEE_TYPES.lookup t).getD 0

/-- One row of `fees.csv`. -/
structure Fee where
  fee_id : ℕ
  item_id : ℕ
  fee_type : String
  fee_amount : ℕ
deriving DecidableEq

/-- Fee block of the per-item loop (lines 533-569 of
`generate_auction_data.py`), as a pure function of the two `random.random()`
draws: always a Seller Service Fee and a Lot Fee; Power Washing when
`r1 < 0.60`; Decal Removal when `r2 < 0.20`; sequential fee ids.  Returns the
fee records and the next free fee id. -/
def gen_fees_for_item (item_id fee_id : ℕ) (r1 r2 : ℚ) : List Fee × ℕ :=
  let f1 : Fee := ⟨fee_id, item_id, "Seller Service Fee", feeAmount ("Seller Service Fee")⟩
  let f2 : Fee := ⟨fee_id + 1, item_id, "Lot Fee", feeAmount ("Lot Fee")⟩
  let pw : List Fee :=
    if r1 < 60 / 100 then [⟨fee_id + 2, item_id, "Power Washing", feeAmount ("Power Washing")⟩]
    else []
  let dr : List Fee :=
    if r2 < 20 / 100 then
      [⟨fee_id + 2 + pw.length, item_id, "Decal Removal", feeAmount ("Decal Removal")⟩]
    else []
  (f1 :: f2 :: (pw ++ dr), fee_id + 2 + pw.length + dr.length)

/-- Fee block threaded through the random source (two `random.random()`
calls, in source order). -/
def gen_fees_rand (item_id fee_id : ℕ) (s : RState) : (List Fee × ℕ) × RState :=
  let p1 := randFloat s
  let p2 := randFloat p1.2
  (gen_fees_for_item item_id fee_id p1.1 p2.1, p2.2)

/-- Category distribution for normal weeks (`CATEGORY_DISTRIBUTION`). -/
def CATEGORY_DISTRIBUTION : List (String × ℚ) :=
  [("Construction", 20 / 100), ("Ag Equipment", 25 / 100),
   ("Truck/Trailer", 35 / 100), ("Passenger", 20 / 100)]

/-- Week-10 dip-week distribution (`WEEK_10_DISTRIBUTION`). -/
def WEEK_10_DISTRIBUTION : List (String × ℚ) :=
  [("Construction", 15 / 100), ("Ag Equipment", 25 / 100),
   ("Truck/Trailer", 30 / 100), ("Passenger", 30 / 100)]

/-- Price ranges by category (`PRICE_RANGES`). -/
def PRICE_RANGES : List (String × (ℕ × ℕ)) :=
  [("Construction", (25000, 50000)), ("Ag Equipment", (15000, 35000)),
   ("Truck/Trailer", (8000, 20000)), ("Passenger", (2000, 8000))]

/-- State target item counts (`STATE_DISTRIBUTION`), in insertion order. -/
def STATE_DISTRIBUTION : List (String × ℕ) :=
  [("KS", 3500), ("MO", 3000), ("OK", 2500), ("TX", 2000),
   ("NE", 800), ("IA", 800), ("IL", 800), ("IN", 700), ("OH", 700),
   ("MI", 500), ("WI", 500), ("MN", 500), ("ND", 200), ("SD", 200),
   ("NC", 800), ("GA", 800), ("FL", 800), ("PA", 400), ("VA", 400),
   ("SC", 350), ("NY", 200),
   ("CA", 1200), ("WA", 700), ("OR", 700), ("NV", 400), ("AZ", 400), ("CO", 350)]

/-- Region of each state (`STATE_TO_REGION`). -/
def STATE_TO_REGION : List (String × ℕ) :=
  [("KS", 1), ("MO", 1), ("OK", 1), ("TX", 1), ("NE", 1), ("IA", 1), ("IL", 1),
   ("IN", 1), ("OH", 1), ("MI", 1), ("WI", 1), ("MN", 1), ("ND", 1), ("SD", 1),
   ("NC", 2), ("GA", 2), ("FL", 2), ("PA", 2), ("VA", 2), ("SC", 2), ("NY", 2),
   ("CA", 3), ("WA", 3), ("OR", 3), ("NV", 3), ("AZ", 3), ("CO", 3)]

/-- Seller business-segment weights (`BUSINESS_SEGMENT_DISTRIBUTION`). -/
def BUSINESS_SEGMENT_DISTRIBUTION : List (String × ℚ) :=
  [("Core", 50 / 100), ("Enterprise", 15 / 100), ("Expansion", 35 / 100)]

/-- Cities by state (`STATE_CITIES`). -/
def STATE_CITIES : List (String × List String) :=
  [("KS", ["Wichita", "Kansas City", "Topeka", "Overland Park"]),
   ("MO", ["Kansas City", "St Louis", "Springfield", "Columbia"]),
   ("OK", ["Oklahoma City", "Tulsa", "Norman", "Broken Arrow"]),
   ("TX", ["Dallas", "Houston", "Austin", "San Antonio"]),
   ("NE", ["Omaha", "Lincoln", "Bellevue"]),
   ("IA", ["Des Moines", "Cedar Rapids", "Davenport"]),
   ("IL", ["Chicago", "Springfield", "Peoria"]),
   ("IN", ["Indianapolis", "Fort Wayne", "Evansville"]),
   ("OH", ["Columbus", "Cleveland", "Cincinnati"]),
   ("MI", ["Detroit", "Grand Rapids", "Lansing"]),
   ("WI", ["Milwaukee", "Madison", "Green Bay"]),
   ("MN", ["Minneapolis", "St Paul", "Rochester"]),
   ("ND", ["Fargo", "Bismarck"]),
   ("SD", ["Sioux Falls", "Rapid City"]),
   ("NC", ["Charlotte", "Raleigh", "Greensboro"]),
   ("GA", ["Atlanta", "Savannah", "Augusta"]),
   ("FL", ["Jacksonville", "Miami", "Tampa", "Orlando"]),
   ("PA", ["Pittsburgh", "Philadelphia", "Harrisburg"]),
   ("VA", ["Virginia Beach", "Richmond", "Norfolk"]),
   ("SC", ["Charleston", "Columbia", "Greenville"]),
   ("NY", ["New York", "Buffalo", "Rochester"]),
   ("CA", ["Los Angeles", "San Francisco", "San Diego", "Sacramento"]),
   ("WA", ["Seattle", "Spokane", "Tacoma"]),
   ("OR", ["Portland", "Eugene", "Salem"]),
   ("NV", ["Las Vegas", "Reno"]),
   ("AZ", ["Phoenix", "Tucson", "Mesa"]),
   ("CO", ["Denver", "Colorado Springs", "Aurora"])]

/-- Subcategories by category (`SUBCATEGORIES`). -/
def SUBCATEGORIES : List (String × List String) :=
  [("Construction", ["Excavators", "Dozers", "Wheel Loaders", "Skid Steers"]),
   ("Ag Equipment", ["Tractors", "Combines", "Planters", "Harvesters"]),
   ("Truck/Trailer", ["Pickup Trucks", "Semi Tractors", "Dump Trucks", "Box Trucks"]),
   ("Passenger", ["Sedans", "SUVs", "Minivans", "Coupes"])]

/-- Makes and model lists by category (`MAKES_MODELS`). -/
def MAKES_MODELS : List (String × List (String × List String)) :=
  [("Construction",
    [("Caterpillar", ["330", "349", "950M", "962M", "972M", "D6", "D8", "D9"]),
     ("Komatsu", ["PC210", "PC290", "WA470", "WA500", "D65", "D85", "D155"]),
     ("John Deere", ["210G", "350G", "644K", "724K", "850K", "950K"]),
     ("Volvo", ["EC220", "EC300", "EC480", "L120H", "L150H", "L220H"])]),
   ("Ag Equipment",
    [("John Deere", ["6155R", "7230R", "8320R", "8370R", "S780", "S790", "X9 1100", "DB60", "1775NT"]),
     ("Case IH", ["Magnum 280", "Magnum 340", "Magnum 380", "8250", "9250", "1255", "2150"]),
     ("New Holland", ["T7.270", "T8.380", "T9.565", "CR8.90", "CR10.90"]),
     ("Massey Ferguson", ["8735", "8737"])]),
   ("Truck/Trailer",
    [("Ford", ["F-250", "F-350", "F-450"]),
     ("Chevrolet", ["Silverado 2500", "Silverado 3500"]),
     ("Ram", ["2500", "3500"]),
     ("Peterbilt", ["348", "389", "567", "579"]),
     ("Kenworth", ["T680", "T880", "W900"]),
     ("Freightliner", ["Cascadia", "Columbia", "Century"])]),
   ("Passenger",
    [("Toyota", ["Camry", "Corolla", "RAV4", "Highlander"]),
     ("Honda", ["Accord", "Civic", "CR-V", "Pilot"]),
     ("Ford", ["Fusion", "Escape", "Explorer"]),
     ("Chevrolet", ["Malibu", "Equinox", "Traverse"])])]

/-- First names used by `generate_customer_name()`. -/
def first_names : List String :=
  ["John", "Michael", "David", "James", "Robert", "William", "Richard", "Thomas",
   "Mary", "Patricia", "Jennifer", "Linda", "Elizabeth", "Susan", "Jessica", "Sarah",
   "Mark", "Donald", "Steven", "Paul", "Andrew", "Joshua", "Kevin", "Brian",
   "Karen", "Nancy", "Betty", "Helen", "Sandra", "Donna", "Carol", "Ruth"]

/-- Last names used by `generate_customer_name()`. -/
def last_names : List String :=
  ["Smith", "Johnson", "Williams", "Brown", "Jones", "Garcia", "Miller", "Davis",
   "Rodriguez", "Martinez", "Hernandez", "Lopez", "Gonzalez", "Wilson", "Anderson",
   "Thomas", "Taylor", "Moore", "Jackson", "Martin", "Lee", "Thompson", "White",
   "Harris", "Clark", "Lewis", "Robinson", "Walker", "Young", "Allen", "King"]

/-- Category distribution in force on a date (`get_category_distribution`). -/
def get_category_distribution (date : ℕ) : List (String × ℚ) :=
  if get_week_number date = 10 then WEEK_10_DISTRIBUTION else CATEGORY_DISTRIBUTION

/-- Model of `pick_weighted_state()`: weighted choice over `STATE_DISTRIBUTION`. -/
def pick_weighted_state (s : RState) : String × RState :=
  choicesW (STATE_DISTRIBUTION.map fun p => (p.1, (p.2 : ℚ))) s

/-- Remaining per-state quotas (line 437): `max(0, target - generated-so-far)`
for every state, in table order; `ℕ` subtraction is exactly the `max 0`. -/
def remaining_states (counts : String → ℕ) : List (String × ℕ) :=
  STATE_DISTRIBUTION.map fun p => (p.1, p.2 - counts p.1)

/-- State selection of the per-item loop (lines 436-445): weighted choice over
remaining quotas, falling back to `pick_weighted_state` when every remaining
quota is zero. -/
def pick_state (counts : String → ℕ) (s : RState) : String × RState :=
  if ((remaining_states counts).map Prod.snd).sum = 0 then
    pick_weighted_state s
  else
    choicesW ((remaining_states counts).map fun p => (p.1, ((p.2 : ℕ) : ℚ))) s

/-- Model of `int(x * c)` for a nonnegative float product: rational floor.
Checked to agree with IEEE double evaluation for every reachable input of the
script (hammer prices up to 50000 times 0.10, and the four category price
minima times 0.5 / 0.7 / 0.8 / 0.9). -/
def int_mul (x : ℕ) (c : ℚ) : ℕ := ⌊(x : ℚ) * c⌋₊

/-- Model of `get_region_district_territory(state)`. -/
def get_region_district_territory (state : String) (s : RState) :
    (ℕ × ℕ × ℕ) × RState :=
  let region_id := (STATE_TO_REGION.lookup state).getD 0
  let district_base := (region_id - 1) * 4
  let p1 := randint (district_base + 1) (district_base + 4) s
  let district_id := p1.1
  let territory_base := (district_id - 1) * 8
  let p2 := randint (territory_base + 1) (territory_base + 8) p1.2
  ((region_id, district_id, p2.1), p2.2)

/-- One row of `customers.csv`. -/
structure Customer where
  customer_id : ℕ
  first_name : String
  last_name : String
  email : String
  state : String
  customer_type : String
  business_segment : Option String
  active : ℕ
deriving DecidableEq, Inhabited

/-- Model of `pick_seller_for_category(sellers, category)`: Construction
prefers Enterprise sellers with probability 0.70, Passenger prefers Core
sellers with probability 0.60, otherwise a uniform seller; the preference
draw only happens when the preferred pool is nonempty (Python's `and`
short-circuit). -/
def pick_seller_for_category (sellers : List Customer) (category : String)
    (s : RState) : Customer × RState :=
  if category = "Construction" then
    let enterprise_sellers := sellers.filter fun c => c.business_segment == some "Enterprise"
    if enterprise_sellers.isEmpty then rchoice sellers s
    else
      let p := randFloat s
      if p.1 < 70 / 100 then rchoice enterprise_sellers p.2 else rchoice sellers p.2
  else if category = "Passenger" then
    let core_sellers := sellers.filter fun c => c.business_segment == some "Core"
    if core_sellers.isEmpty then rchoice sellers s
    else
      let p := randFloat s
      if p.1 < 60 / 100 then rchoice core_sellers p.2 else rchoice sellers p.2
  else rchoice sellers s

/-- Uppercase alphabet used by `generate_icn()`. -/
def icn_letters : List Char := "ABCDEFGHIJKLMNOPQRSTUVWXYZ".toList

/-- Digit alphabet used by `generate_icn()`. -/
def icn_digits : List Char := "0123456789".toList

/-- Model of `generate_icn()`: two uniform letters then four uniform digits
(each pick of `random.choices(..., k=n)` consumes one draw). -/
def generate_icn (s : RState) : String × RState :=
  let p1 := rchoice icn_letters s
  let p2 := rchoice icn_letters p1.2
  let p3 := rchoice icn_digits p2.2
  let p4 := rchoice icn_digits p3.2
  let p5 := rchoice icn_digits p4.2
  let p6 := rchoice icn_digits p5.2
  (String.mk [p1.1, p2.1, p3.1, p4.1, p5.1, p6.1], p6.2)

/-- Model of `generate_customer_name()`. -/
def generate_customer_name (s : RState) : (String × String) × RState :=
  let p1 := rchoice first_names s
  let p2 := rchoice last_names p1.2
  ((p1.1, p2.1), p2.2)

/-- One row of `items_v2.csv`; `auctiondate` is the day offset. -/
structure Item where
  unique_id : ℕ
  icn : String
  auctiondate : ℕ
  year : ℕ
  make : String
  model : String
  category : String
  subcategory : String
  location_state : String
  location_city : String
  starting_bid : ℕ
  reserve_price : ℕ
  hammer : ℕ
  buyers_premium : ℕ
  contract_price : ℕ
  reserve_met : ℕ
  seller_id : ℕ
  buyer_id : ℕ
  num_bids : ℕ
  region_id : ℕ
  district_id : ℕ
  territory_id : ℕ
  business_segment : Option String
deriving DecidableEq

/-- One row of `bids.csv`; the timestamp is kept as (day offset, hour,
minute). -/
structure Bid where
  bid_id : ℕ
  item_id : ℕ
  bidder_id : ℕ
  bid_amount : ℕ
  bid_date : ℕ
  bid_hour : ℕ
  bid_minute : ℕ
  is_winning_bid : ℕ
deriving DecidableEq

/-- Bid loop of the per-item body (lines 499-531), by recursion on the number
of bids still to emit: each step picks a bidder, adds an increment in
`[100, 1000]`, and the final step (remaining `= 1`, i.e. `bid_num ==
num_bids - 1`) overrides the amount with the hammer price and the bidder with
the designated buyer.  Returns the bids and the next free bid id. -/
def gen_bids (buyers : List Customer) (auction_date item_id buyer_id hammer : ℕ) :
    ℕ → ℕ → ℕ → RState → (List Bid × ℕ) × RState
  | 0, _, bid_id, s => (([], bid_id), s)
  | n + 1, current_bid, bid_id, s =>
      let pb := rchoice buyers s
      let pinc := randint 100 1000 pb.2
      let cur1 := current_bid + pinc.1
      let is_winning : ℕ := if n = 0 then 1 else 0
      let cur2 := if n = 0 then hammer else cur1
      let bidder_id := if n = 0 then buyer_id else pb.1.customer_id
      let ph := randint 8 17 pinc.2
      let pm := randint 0 59 ph.2
      let bid : Bid := ⟨bid_id, item_id, bidder_id, cur2, auction_date, ph.1, pm.1, is_winning⟩
      let rest := gen_bids buyers auction_date item_id buyer_id hammer n cur2 (bid_id + 1) pm.2
      ((bid :: rest.1.1, rest.1.2), rest.2)

/-- Result of one iteration of the per-item loop. -/
structure ItemStep where
  item : Item
  bids : List Bid
  fees : List Fee
  counts : String → ℕ
  next_bid_id : ℕ
  next_fee_id : ℕ

/-- One iteration of the per-item loop of `generate_items_bids_fees`
(lines 428-571), with every random draw in source order: category, state
(quota sampler), city, subcategory, make, model, starting bid, reserve,
hammer, district, territory, seller, buyer, ICN, year, number of bids, then
the bid loop and the fee block. -/
def gen_one_item (sellers buyers : List Customer) (auction_date : ℕ)
    (category_dist : List (String × ℚ)) (counts : String → ℕ)
    (item_id bid_id fee_id : ℕ) (s : RState) : ItemStep × RState :=
  let pcat := choicesW category_dist s
  let category := pcat.1
  let pstate := pick_state counts pcat.2
  let state := pstate.1
  let counts2 : String → ℕ := fun t => if t = state then counts t + 1 else counts t
  let pcity := rchoice ((STATE_CITIES.lookup state).getD []) pstate.2
  let psub := rchoice ((SUBCATEGORIES.lookup category).getD []) pcity.2
  let pmake := rchoice ((MAKES_MODELS.lookup category).getD []) psub.2
  let pmodel := rchoice pmake.1.2 pmake.2
  let pr := (PRICE_RANGES.lookup category).getD (0, 0)
  let min_price := pr.1
  let max_price := pr.2
  let pstart := randint (int_mul min_price (50 / 100)) (int_mul min_price (80 / 100)) pmodel.2
  let starting_bid := pstart.1
  let pres := randint (int_mul min_price (70 / 100)) (int_mul min_price (90 / 100)) pstart.2
  let reserve_price := pres.1
  let pham := randint min_price max_price pres.2
  let hammer := pham.1
  let reserve_met : ℕ := if reserve_price ≤ hammer then 1 else 0
  let buyers_premium := int_mul hammer (10 / 100)
  let contract_price := hammer + buyers_premium
  let prdt := get_region_district_territory state pham.2
  let pseller := pick_seller_for_category sellers category prdt.2
  let seller := pseller.1
  let pbuyer := rchoice buyers pseller.2
  let buyer := pbuyer.1
  let picn := generate_icn pbuyer.2
  let pyear := randint 1990 2024 picn.2
  let pnb := randint 1 15 pyear.2
  let num_bids := pnb.1
  let item : Item :=
    ⟨item_id, picn.1, auction_date, pyear.1, pmake.1.1, pmodel.1, category, psub.1,
     state, pcity.1, starting_bid, reserve_price, hammer, buyers_premium, contract_price,
     reserve_met, seller.customer_id, buyer.customer_id, num_bids,
     prdt.1.1, prdt.1.2.1, prdt.1.2.2, seller.business_segment⟩
  let pbids := gen_bids buyers auction_date item_id buyer.customer_id hammer
    num_bids starting_bid bid_id pnb.2
  let pfees := gen_fees_rand item_id fee_id pbids.2
  (⟨item, pbids.1.1, pfees.1.1, counts2, pbids.1.2, pfees.1.2⟩, pfees.2)

/-- Inner `for _ in range(num_items)` loop of a single auction day. -/
def gen_items_day (sellers buyers : List Customer) (auction_date : ℕ)
    (category_dist : List (String × ℚ)) :
    ℕ → (String → ℕ) → ℕ → ℕ → ℕ → RState →
    (List Item × List Bid × List Fee × ((String → ℕ) × ℕ × ℕ × ℕ)) × RState
  | 0, counts, item_id, bid_id, fee_id, s =>
      (([], [], [], (counts, item_id, bid_id, fee_id)), s)
  | n + 1, counts, item_id, bid_id, fee_id, s =>
      let p := gen_one_item sellers buyers auction_date category_dist counts
        item_id bid_id fee_id s
      let st := p.1
      let rest := gen_items_day sellers buyers auction_date category_dist n
        st.counts (item_id + 1) st.next_bid_id st.next_fee_id p.2
      ((st.item :: rest.1.1, st.bids ++ rest.1.2.1, st.fees ++ rest.1.2.2.1,
        rest.1.2.2.2), rest.2)

/-- Outer loop over the auction calendar: draw the day's item count, select
the week's category distribution, then run the per-item loop. -/
def gen_days (sellers buyers : List Customer) :
    List ℕ → (String → ℕ) → ℕ → ℕ → ℕ → RState →
    (List Item × List Bid × List Fee) × RState
  | [], _, _, _, _, s => (([], [], []), s)
  | date :: rest, counts, item_id, bid_id, fee_id, s =>
      let pn := items_per_day date s
      let pday := gen_items_day sellers buyers date (get_category_distribution date)
        pn.1 counts item_id bid_id fee_id pn.2
      let acc := pday.1.2.2.2
      let prest := gen_days sellers buyers rest acc.1 acc.2.1 acc.2.2.1 acc.2.2.2 pday.2
      ((pday.1.1 ++ prest.1.1, pday.1.2.1 ++ prest.1.2.1,
        pday.1.2.2.1 ++ prest.1.2.2), prest.2)

/-- Model of `generate_items_bids_fees(customers)`: split the pools, then
loop over `generate_auction_dates` with fresh counters (ids start at 1,
per-state counts at 0). -/
def generate_items_bids_fees (customers : List Customer) (s : RState) :
    (List Item × List Bid × List Fee) × RState :=
  let sellers := customers.filter fun c =>
    c.customer_type == "seller" || c.customer_type == "both"
  let buyers := customers.filter fun c =>
    c.customer_type == "buyer" || c.customer_type == "both"
  gen_days sellers buyers generate_auction_dates (fun _ => 0) 1 1 1 s

/-- One buyer record of `generate_customers()` (no business segment). -/
def gen_buyer (customer_id : ℕ) (s : RState) : Customer × RState :=
  let pname := generate_customer_name s
  let pstate := pick_weighted_state pname.2
  let pe := randint 1 999 pstate.2
  (⟨customer_id, pname.1.1, pname.1.2,
    pname.1.1.toLower ++ "." ++ pname.1.2.toLower ++ toString pe.1 ++ "@email.com",
    pstate.1, "buyer", none, 1⟩, pe.2)

/-- One seller or both-role record of `generate_customers()` (business
segment drawn from `BUSINESS_SEGMENT_DISTRIBUTION` before the email draw). -/
def gen_seller (customer_id : ℕ) (ctype : String) (s : RState) : Customer × RState :=
  let pname := generate_customer_name s
  let pstate := pick_weighted_state pname.2
  let pseg := choicesW BUSINESS_SEGMENT_DISTRIBUTION pstate.2
  let pe := randint 1 999 pseg.2
  (⟨customer_id, pname.1.1, pname.1.2,
    pname.1.1.toLower ++ "." ++ pname.1.2.toLower ++ toString pe.1 ++ "@email.com",
    pstate.1, ctype, some pseg.1, 1⟩, pe.2)

/-- Sequential-id generation loop shared by the three customer blocks. -/
def gen_customer_loop (gen : ℕ → RState → Customer × RState) :
    ℕ → ℕ → RState → List Customer × RState
  | 0, _, s => ([], s)
  | n + 1, customer_id, s =>
      let p := gen customer_id s
      let rest := gen_customer_loop gen n (customer_id + 1) p.2
      (p.1 :: rest.1, rest.2)

/-- Model of `generate_customers()`: buyers, then sellers, then both-role
customers, with one shared sequential id counter.  The script fixes the
pool sizes at 2000 / 500 / 150; they are parameters here (the spec's
`generate_customers(n_buyers, n_sellers, n_both)` contract) so that the
determinism law can quantify over input sizes. -/
def generate_customers (n_buyers n_sellers n_both : ℕ) (s : RState) :
    List Customer × RState :=
  let pb := gen_customer_loop gen_buyer n_buyers 1 s
  let ps := gen_customer_loop (fun i => gen_seller i ("seller")) n_sellers (n_buyers + 1) pb.2
  let pt := gen_customer_loop (fun i => gen_seller i ("both")) n_both
    (n_buyers + n_sellers + 1) ps.2
  (pb.1 ++ ps.1 ++ pt.1, pt.2)

/-- Whole pipeline of `main()`: customers first, then items/bids/fees, all
randomness from the single source initialized by the seed (`random.seed(42)`
fixes `stream`). -/
def run_generator (n_buyers n_sellers n_both : ℕ) (stream : ℕ → ℕ) :
    List Customer × List Item × List Bid × List Fee :=
  let pc := generate_customers n_buyers n_sellers n_both ⟨stream, 0⟩
  let pi := generate_items_bids_fees pc.1 pc.2
  (pc.1, pi.1.1, pi.1.2.1, pi.1.2.2)

/-- Pipeline as a function of the seed: `seedStream` maps a seed to the
stream of values the seeded pseudo-random source will produce. -/
def run_with_seed (seedStream : ℕ → ℕ → ℕ) (seed : ℕ)
    (n_buyers n_sellers n_both : ℕ) : List Customer × List Item × List Bid × List Fee :=
  run_generator n_buyers n_sellers n_both (seedStream seed)

/-- Concrete one-element pools for witnesses and counterexamples. -/
def buyerA : Customer :=
  ⟨1, "John", "Smith", "john.smith1@email.com", "KS", "buyer", none, 1⟩

/-- Concrete seller (Expansion segment, so category preference pools are
empty and the preference draw is skipped). -/
def sellerA : Customer :=
  ⟨2, "Jane", "Doe", "jane.doe1@email.com", "KS", "seller", some "Expansion", 1⟩

/-- Stream witnessing the C2 counterexample: category draw picks Passenger
(value near `2 ^ 53` makes the unit uniform close to 1), the hammer draw
(position 8) yields 2006; every other draw takes its minimum. -/
def streamC2 : ℕ → ℕ := fun i =>
  if i = 0 then 2 ^ 53 - 1 else if i = 8 then 6 else 0

/-- Stream witnessing the C3 counterexample: Passenger category, starting
bid 1600 (position 6), hammer 2000 (position 8 value 0), two bids
(position 20), first increment 1000 (position 22). -/
def streamC3 : ℕ → ℕ := fun i =>
  if i = 0 then 2 ^ 53 - 1 else if i = 6 then 600
  else if i = 20 then 1 else if i = 22 then 900 else 0

namespace Mock

/-- Model of `generate_auction_dates()` in `generate_mock_auction_data.py`:
identical weekday filter and range, but no holiday exclusion at all. -/
def generate_auction_dates : List ℕ :=
  (List.range 153).filter fun d =>
    (weekdayOf d == 1 || weekdayOf d == 2 || weekdayOf d == 3)

/-- Incremental week tracking of the mock script's main loop (lines 129-137):
starting from `week_number = 0` and no week start, a new week begins at a
date lying 7 or more days after the current week's first auction date; each
date is paired with the week number in force when it is processed. -/
def week_tracking : List ℕ → ℕ → Option ℕ → List (ℕ × ℕ)
  | [], _, _ => []
  | d :: rest, week_number, none =>
      (d, week_number + 1) :: week_tracking rest (week_number + 1) (some d)
  | d :: rest, week_number, some w =>
      if 7 ≤ d - w then
        (d, week_number + 1) :: week_tracking rest (week_number + 1) (some d)
      else
        (d, week_number) :: week_tracking rest week_number (some w)

/-- Week numbers the mock run actually assigns to its auction dates. -/
def date_weeks : List (ℕ × ℕ) := week_tracking generate_auction_dates 0 none

/-- Flattened fee/pricing record of `generate_fees(hammer_price)` in the mock
script, as a pure function of its two `random.random()` draws.  Note the
comparisons in the source are `random.random() > 0.6` / `> 0.8`. -/
structure Fees where
  seller_service_fee : ℕ
  lot_fee : ℕ
  power_washing : ℕ
  decal_removal : ℕ
  total_fees : ℕ
  contract_price : ℚ
deriving DecidableEq

/-- Model of `generate_fees(hammer_price)` (lines 44-61 of the mock script). -/
def generate_fees (hammer_price : ℕ) (r1 r2 : ℚ) : Fees :=
  let seller_service_fee : ℕ := 200
  let lot_fee : ℕ := 150
  let power_washing : ℕ := if 60 / 100 < r1 then 225 else 0
  let decal_removal : ℕ := if 80 / 100 < r2 then 100 else 0
  let total_fees := seller_service_fee + lot_fee + power_washing + decal_removal
  let contract_price : ℚ := (hammer_price : ℚ) + (hammer_price : ℚ) * (10 / 100)
  ⟨seller_service_fee, lot_fee, power_washing, decal_removal, total_fees, contract_price⟩

end Mock

/-! Theorems.  Helper lemmas come first; the claim theorems are named
`C1_...` through `C10_...`. -/

theorem randFloat_nonneg (s : RState) : 0 ≤ (randFloat s).1 := by
  unfold randFloat rdraw
  positivity

theorem randFloat_lt_one (s : RState) : (randFloat s).1 < 1 := by
  unfold randFloat rdraw
  rw [div_lt_one (by positivity)]
  exact_mod_cast Nat.mod_lt _ (by positivity)

theorem randint_le (a b : ℕ) (s : RState) (h : a ≤ b) : (randint a b s).1 ≤ b := by
  unfold randint rdraw
  have : (s.stream s.pos) % (b + 1 - a) ≤ b - a := by
    have h1 : (s.stream s.pos) % (b + 1 - a) < b + 1 - a :=
      Nat.mod_lt _ (by omega)
    omega
  simpa using by omega

theorem randint_ge (a b : ℕ) (s : RState) : a ≤ (randint a b s).1 := by
  unfold randint rdraw
  exact Nat.le_add_right _ _

theorem pickCum_mem_pos {α : Type} [Inhabited α] :
    ∀ (ws : List (α × ℚ)) (t : ℚ), 0 ≤ t → t < totalW ws →
      ∃ w, (pickCum ws t, w) ∈ ws ∧ 0 < w
  | [], t, h0, hlt => absurd (h0.trans_lt hlt) (by simp [totalW])
  | (a, w) :: rest, t, h0, hlt => by
      unfold pickCum
      by_cases hw : t < w
      · exact ⟨w, by simp [hw], h0.trans_lt hw⟩
      · push_neg at hw
        have hrec := pickCum_mem_pos rest (t - w) (by linarith)
          (by simp [totalW] at hlt ⊢; linarith)
        rcases hrec with ⟨w', hmem, hpos⟩
        exact ⟨w', by simp [if_neg (not_lt.mpr hw), hmem], hpos⟩

/-- C4 (amended): the main profile's calendar contains, in chronological
order, exactly the dates in [2025-08-01, 2025-12-31] whose weekday is
Tue/Wed/Thu and which are not in its holiday set {Thanksgiving, Christmas};
the mock profile's calendar contains, in chronological order, exactly the
Tue/Wed/Thu dates of the same range with no holiday exclusion at all. -/
theorem C4_calendars :
    (∀ d : ℕ, d ∈ generate_auction_dates ↔
      d < 153 ∧ (weekdayOf d = 1 ∨ weekdayOf d = 2 ∨ weekdayOf d = 3) ∧ d ∉ holidays) ∧
    List.Pairwise (· < ·) generate_auction_dates ∧
    (∀ d : ℕ, d ∈ Mock.generate_auction_dates ↔
      d < 153 ∧ (weekdayOf d = 1 ∨ weekdayOf d = 2 ∨ weekdayOf d = 3)) ∧
    List.Pairwise (· < ·) Mock.generate_auction_dates := by
  refine ⟨fun d => ?_, by decide, fun d => ?_, by decide⟩
  · simp [generate_auction_dates, List.mem_filter, List.mem_range, and_assoc, or_assoc]
  · simp [Mock.generate_auction_dates, List.mem_filter, List.mem_range, and_assoc, or_assoc]

/-- C4 counterexample: the mock profile emits Thanksgiving (2025-11-27,
offset 118), a date of the configured holiday set which the main profile
excludes — so the shared "not in the holiday set" characterization fails for
the mock profile. -/
theorem C4_cex :
    (118 : ℕ) ∈ Mock.generate_auction_dates ∧ (118 : ℕ) ∈ holidays ∧
      (118 : ℕ) ∉ generate_auction_dates := by decide

/-- C8: for every date of the generated auction calendar, the mock profile's
incremental week tracker assigns exactly `floor((date - epoch).days / 7) + 1`
with epoch 2025-08-01, i.e. the two profiles' week computations agree on all
auction dates. -/
theorem C8_week_agreement :
    Mock.date_weeks = Mock.generate_auction_dates.map fun d => (d, get_week_number d) := by
  decide

/-- C10: every record of the mock profile satisfies `total_fees =
seller_service_fee + lot_fee + power_washing + decal_removal`, an optional
fee contributing 0 when not included. -/
theorem C10_total_fees (hammer_price : ℕ) (r1 r2 : ℚ) :
    (Mock.generate_fees hammer_price r1 r2).total_fees =
      (Mock.generate_fees hammer_price r1 r2).seller_service_fee +
      (Mock.generate_fees hammer_price r1 r2).lot_fee +
      (Mock.generate_fees hammer_price r1 r2).power_washing +
      (Mock.generate_fees hammer_price r1 r2).decal_removal := rfl

/-- C7 (amended): both profiles always create a Seller Service Fee and a Lot
Fee; in the main profile, Power Washing is included exactly when the unit
draw falls in [0, 0.6) (measure 0.60) and Decal Removal exactly when its draw
falls in [0, 0.2) (measure 0.20); in the mock profile, Power Washing is
included exactly when the draw falls in (0.6, 1) — measure 0.40, not 0.60 —
and Decal Removal exactly when its draw falls in (0.8, 1) (measure 0.20). -/
theorem C7_fee_inclusion (item_id fee_id hammer_price : ℕ) (r1 r2 : ℚ)
    (h1 : r1 ∈ Set.Ico (0 : ℚ) 1) (h2 : r2 ∈ Set.Ico (0 : ℚ) 1) :
    ((gen_fees_for_item item_id fee_id r1 r2).1.countP
        (fun f => f.fee_type == "Seller Service Fee") = 1 ∧
      (gen_fees_for_item item_id fee_id r1 r2).1.countP
        (fun f => f.fee_type == "Lot Fee") = 1 ∧
      ((∃ f ∈ (gen_fees_for_item item_id fee_id r1 r2).1, f.fee_type = "Power Washing") ↔
        r1 ∈ Set.Ico (0 : ℚ) (60 / 100)) ∧
      ((∃ f ∈ (gen_fees_for_item item_id fee_id r1 r2).1, f.fee_type = "Decal Removal") ↔
        r2 ∈ Set.Ico (0 : ℚ) (20 / 100))) ∧
    ((Mock.generate_fees hammer_price r1 r2).seller_service_fee = 200 ∧
      (Mock.generate_fees hammer_price r1 r2).lot_fee = 150 ∧
      ((Mock.generate_fees hammer_price r1 r2).power_washing ≠ 0 ↔
        r1 ∈ Set.Ioo (60 / 100 : ℚ) 1) ∧
      ((Mock.generate_fees hammer_price r1 r2).decal_removal ≠ 0 ↔
        r2 ∈ Set.Ioo (80 / 100 : ℚ) 1)) := by
  obtain ⟨h10, h11⟩ := h1
  obtain ⟨h20, h21⟩ := h2
  refine ⟨⟨?_, ?_, ?_, ?_⟩, rfl, rfl, ?_, ?_⟩
  · by_cases ha : r1 < 60 / 100 <;> by_cases hb : r2 < 20 / 100 <;>
      simp [gen_fees_for_item, ha, hb, feeAmount, FEE_TYPES]
  · by_cases ha : r1 < 60 / 100 <;> by_cases hb : r2 < 20 / 100 <;>
      simp [gen_fees_for_item, ha, hb, feeAmount, FEE_TYPES]
  · by_cases ha : r1 < 60 / 100 <;> by_cases hb : r2 < 20 / 100 <;>
      simp [gen_fees_for_item, ha, hb, feeAmount, FEE_TYPES, Set.mem_Ico, h10]
  · by_cases ha : r1 < 60 / 100 <;> by_cases hb : r2 < 20 / 100 <;>
      simp [gen_fees_for_item, ha, hb, feeAmount, FEE_TYPES, Set.mem_Ico, h20]
  · by_cases ha : 60 / 100 < r1 <;>
      simp [Mock.generate_fees, ha, Set.mem_Ioo, h11]
  · by_cases hb : 80 / 100 < r2 <;>
      simp [Mock.generate_fees, hb, Set.mem_Ioo, h21]

/-- C7 witness: at draws r1 = 1/2 and r2 = 0 the fee characterizations hold
concretely (main profile includes Power Washing, mock profile does not). -/
theorem C7_fee_inclusion_witness :
    ((gen_fees_for_item 1 1 (1 / 2) 0).1.countP
        (fun f => f.fee_type == "Seller Service Fee") = 1) ∧
    ((∃ f ∈ (gen_fees_for_item 1 1 (1 / 2) 0).1, f.fee_type = "Power Washing") ↔
      (1 / 2 : ℚ) ∈ Set.Ico (0 : ℚ) (60 / 100)) ∧
    ((Mock.generate_fees 2000 (1 / 2) 0).power_washing ≠ 0 ↔
      (1 / 2 : ℚ) ∈ Set.Ioo (60 / 100 : ℚ) 1) :=
  ⟨(C7_fee_inclusion 1 1 2000 (1 / 2) 0
      (by rw [Set.mem_Ico]; norm_num) (by rw [Set.mem_Ico]; norm_num)).1.1,
   (C7_fee_inclusion 1 1 2000 (1 / 2) 0
      (by rw [Set.mem_Ico]; norm_num) (by rw [Set.mem_Ico]; norm_num)).1.2.2.1,
   (C7_fee_inclusion 1 1 2000 (1 / 2) 0
      (by rw [Set.mem_Ico]; norm_num) (by rw [Set.mem_Ico]; norm_num)).2.2.2.1⟩

/-- C7 counterexample: in the mock profile the Power Washing inclusion event
is the interval (0.6, 1) of measure 0.40, not a set of measure 0.60; in
particular the draw 1/2 (which lies in the main profile's measure-0.6
inclusion set [0, 0.6)) does not trigger Power Washing in the mock profile. -/
theorem C7_cex :
    {r : ℚ | r ∈ Set.Ico (0 : ℚ) 1 ∧ (Mock.generate_fees 2000 r 0).power_washing ≠ 0} =
        Set.Ioo (60 / 100 : ℚ) 1 ∧
      ((1 : ℚ) - 60 / 100 ≠ 60 / 100) ∧
      (Mock.generate_fees 2000 (1 / 2) 0).power_washing = 0 ∧
      (1 / 2 : ℚ) ∈ Set.Ico (0 : ℚ) (60 / 100) := by
  refine ⟨?_, by norm_num, by with_unfolding_all rfl, by rw [Set.mem_Ico]; norm_num⟩
  ext r
  simp only [Set.mem_setOf_eq, Set.mem_Ico, Set.mem_Ioo, Mock.generate_fees]
  constructor
  · rintro ⟨⟨h0, h1⟩, hpw⟩
    split_ifs at hpw with h
    · exact ⟨h, h1⟩
    · simp at hpw
  · rintro ⟨h35, h1⟩
    exact ⟨⟨by linarith, h1⟩, by simp [if_pos h35]⟩

theorem randint_lt_randint (a₁ b₁ a₂ b₂ : ℕ) (s₁ s₂ : RState)
    (h₁ : a₁ ≤ b₁) (h₂ : b₁ < a₂) :
    (randint a₁ b₁ s₁).1 < (randint a₂ b₂ s₂).1 :=
  lt_of_le_of_lt (randint_le _ _ _ h₁) (lt_of_lt_of_le h₂ (randint_ge _ _ _))

theorem min_one_of_pos (n : ℕ) (h : 1 ≤ n) : min n 1 = 1 := by omega

theorem gen_bids_length (buyers : List Customer) (ad iid buyid hammer n : ℕ) :
    ∀ (cur bi : ℕ) (s : RState),
      ((gen_bids buyers ad iid buyid hammer n cur bi s).1.1).length = n := by
  induction n with
  | zero => intro cur bi s; rfl
  | succ n ih =>
      intro cur bi s
      simp only [gen_bids]
      simp [ih]

theorem gen_bids_item_id (buyers : List Customer) (ad iid buyid hammer n : ℕ) :
    ∀ (cur bi : ℕ) (s : RState),
      ∀ b ∈ (gen_bids buyers ad iid buyid hammer n cur bi s).1.1, b.item_id = iid := by
  induction n with
  | zero => intro cur bi s b hb; simp [gen_bids] at hb
  | succ n ih =>
      intro cur bi s b hb
      simp only [gen_bids, List.mem_cons] at hb
      rcases hb with rfl | hb
      · rfl
      · exact ih _ _ _ b hb

theorem gen_bids_winning_count (buyers : List Customer) (ad iid buyid hammer n : ℕ) :
    ∀ (cur bi : ℕ) (s : RState),
      ((gen_bids buyers ad iid buyid hammer n cur bi s).1.1).countP
        (fun b => b.is_winning_bid == 1) = min n 1 := by
  induction n with
  | zero => intro cur bi s; rfl
  | succ n ih =>
      intro cur bi s
      simp only [gen_bids]
      rcases Nat.eq_zero_or_pos n with rfl | hn
      · simp [List.countP_cons, gen_bids]
      · have h0 : ¬(n = 0) := by omega
        simp [List.countP_cons, ih, h0]
        omega

theorem gen_bids_winning_vals (buyers : List Customer) (ad iid buyid hammer n : ℕ) :
    ∀ (cur bi : ℕ) (s : RState),
      ∀ b ∈ (gen_bids buyers ad iid buyid hammer n cur bi s).1.1,
        b.is_winning_bid = 1 → b.bid_amount = hammer ∧ b.bidder_id = buyid := by
  induction n with
  | zero => intro cur bi s b hb; simp [gen_bids] at hb
  | succ n ih =>
      intro cur bi s b hb hwin
      simp only [gen_bids, List.mem_cons] at hb
      rcases hb with rfl | hb
      · rcases Nat.eq_zero_or_pos n with rfl | hn
        · simp
        · have h0 : ¬(n = 0) := by omega
          simp [h0] at hwin
      · exact ih _ _ _ b hb hwin

theorem gen_bids_nonwinning_gt (buyers : List Customer) (ad iid buyid hammer n : ℕ) :
    ∀ (cur bi : ℕ) (s : RState),
      ∀ b ∈ (gen_bids buyers ad iid buyid hammer n cur bi s).1.1,
        b.is_winning_bid ≠ 1 → cur < b.bid_amount := by
  induction n with
  | zero => intro cur bi s b hb; simp [gen_bids] at hb
  | succ n ih =>
      intro cur bi s b hb hnw
      have hinc : 100 ≤ (randint 100 1000 (rchoice buyers s).2).1 := randint_ge _ _ _
      simp only [gen_bids, List.mem_cons] at hb
      rcases hb with rfl | hb
      · rcases Nat.eq_zero_or_pos n with rfl | hn
        · simp at hnw
        · have h0 : ¬(n = 0) := by omega
          simp only [h0, if_false]
          omega
      · rcases Nat.eq_zero_or_pos n with rfl | hn
        · simp [gen_bids] at hb
        · have h0 : ¬(n = 0) := by omega
          rw [if_neg h0] at hb
          have := ih _ _ _ b hb hnw
          omega

theorem gen_bids_incr (buyers : List Customer) (ad iid buyid hammer n : ℕ) :
    ∀ (cur bi : ℕ) (s : RState),
      List.Chain' (· < ·)
          ((((gen_bids buyers ad iid buyid hammer n cur bi s).1.1).map Bid.bid_amount).dropLast) ∧
        ∀ x ∈ (((gen_bids buyers ad iid buyid hammer n cur bi s).1.1).map
            Bid.bid_amount).dropLast, cur < x := by
  induction n with
  | zero => intro cur bi s; exact ⟨by simp [gen_bids], by simp [gen_bids]⟩
  | succ n ih =>
      intro cur bi s
      rcases Nat.eq_zero_or_pos n with rfl | hn
      · exact ⟨by simp [gen_bids], by simp [gen_bids]⟩
      · have h0 : ¬(n = 0) := by omega
        have hinc : 100 ≤ (randint 100 1000 (rchoice buyers s).2).1 := randint_ge _ _ _
        obtain ⟨ihc, iha⟩ := ih (cur + (randint 100 1000 (rchoice buyers s).2).1) (bi + 1)
          ((randint 0 59 (randint 8 17 (randint 100 1000 (rchoice buyers s).2).2).2).2)
        have hlen : (((gen_bids buyers ad iid buyid hammer n
            (cur + (randint 100 1000 (rchoice buyers s).2).1) (bi + 1)
            ((randint 0 59 (randint 8 17 (randint 100 1000 (rchoice buyers s).2).2).2).2)).1.1).map
              Bid.bid_amount).length = n := by
          simp [gen_bids_length]
        have hne : (((gen_bids buyers ad iid buyid hammer n
            (cur + (randint 100 1000 (rchoice buyers s).2).1) (bi + 1)
            ((randint 0 59 (randint 8 17 (randint 100 1000 (rchoice buyers s).2).2).2).2)).1.1).map
              Bid.bid_amount) ≠ [] := by
          intro hnil
          rw [hnil] at hlen
          simp at hlen
          omega
        simp only [gen_bids, List.map_cons]
        rw [if_neg h0]
        rw [List.dropLast_cons_of_ne_nil hne]
        constructor
        · rw [List.chain'_cons']
          exact ⟨fun y hy => iha y (List.mem_of_mem_head? hy), ihc⟩
        · intro x hx
          rcases List.mem_cons.mp hx with rfl | hx
          · omega
          · have := iha x hx
            omega

theorem gen_bids_last (buyers : List Customer) (ad iid buyid hammer n : ℕ) :
    ∀ (cur bi : ℕ) (s : RState), n ≠ 0 →
      ((((gen_bids buyers ad iid buyid hammer n cur bi s).1.1).map
        Bid.bid_amount).getLast? = some hammer) := by
  induction n with
  | zero => intro _ _ _ h; exact absurd rfl h
  | succ n ih =>
      intro cur bi s _
      rcases Nat.eq_zero_or_pos n with rfl | hn
      · simp [gen_bids]
      · have h0 : ¬(n = 0) := by omega
        have hrec := ih (cur + (randint 100 1000 (rchoice buyers s).2).1) (bi + 1)
          ((randint 0 59 (randint 8 17 (randint 100 1000 (rchoice buyers s).2).2).2).2) h0
        simp only [gen_bids, List.map_cons]
        rw [if_neg h0]
        exact List.mem_getLast?_cons hrec

theorem gen_bids_head (buyers : List Customer) (ad iid buyid hammer n cur bi : ℕ)
    (s : RState) (hn : 2 ≤ n) :
    ∃ inc, 100 ≤ inc ∧ inc ≤ 1000 ∧
      ((((gen_bids buyers ad iid buyid hammer n cur bi s).1.1).map
        Bid.bid_amount).head? = some (cur + inc)) := by
  obtain ⟨m, rfl⟩ : ∃ m, n = m + 2 := ⟨n - 2, by omega⟩
  refine ⟨(randint 100 1000 (rchoice buyers s).2).1, randint_ge _ _ _,
    randint_le _ _ _ (by norm_num), ?_⟩
  simp only [gen_bids, List.map_cons, List.head?_cons]
  rw [if_neg (Nat.succ_ne_zero m)]

theorem gen_bids_map_one (buyers : List Customer) (ad iid buyid hammer cur bi : ℕ)
    (s : RState) :
    (((gen_bids buyers ad iid buyid hammer 1 cur bi s).1.1).map Bid.bid_amount) = [hammer] := by
  simp [gen_bids]

theorem int_mul_ten (x : ℕ) : int_mul x (10 / 100) = x / 10 := by
  unfold int_mul
  rw [show (10 / 100 : ℚ) = 1 / 10 by norm_num, mul_one_div,
    show ((10 : ℚ)) = ((10 : ℕ) : ℚ) by norm_num, Nat.floor_div_nat]
  simp

theorem totalW_category : totalW CATEGORY_DISTRIBUTION = 1 := by
  simp [totalW, CATEGORY_DISTRIBUTION]
  norm_num

theorem totalW_week10 : totalW WEEK_10_DISTRIBUTION = 1 := by
  simp [totalW, WEEK_10_DISTRIBUTION]
  norm_num

theorem gen_one_item_starting_lt_hammer (sellers buyers : List Customer) (ad : ℕ)
    (cd : List (String × ℚ))
    (hcd : cd = CATEGORY_DISTRIBUTION ∨ cd = WEEK_10_DISTRIBUTION)
    (counts : String → ℕ) (iid bi fi : ℕ) (s : RState) :
    (gen_one_item sellers buyers ad cd counts iid bi fi s).1.item.starting_bid <
      (gen_one_item sellers buyers ad cd counts iid bi fi s).1.item.hammer := by
  have hr0 : 0 ≤ (randFloat s).1 := randFloat_nonneg s
  have hr1 : (randFloat s).1 < 1 := randFloat_lt_one s
  rcases hcd with rfl | rfl
  · obtain ⟨w, hmem, hw⟩ := pickCum_mem_pos CATEGORY_DISTRIBUTION
      ((randFloat s).1 * totalW CATEGORY_DISTRIBUTION)
      (by rw [totalW_category, mul_one]; exact hr0)
      (by rw [totalW_category, mul_one]; exact hr1)
    dsimp only [gen_one_item, choicesW]
    simp only [CATEGORY_DISTRIBUTION] at hmem ⊢
    simp only [List.mem_cons, List.not_mem_nil, or_false, Prod.mk.injEq] at hmem
    rcases hmem with ⟨hcat, _⟩ | ⟨hcat, _⟩ | ⟨hcat, _⟩ | ⟨hcat, _⟩ <;>
      rw [hcat] <;>
      exact randint_lt_randint _ _ _ _ _ _
        (by simp [PRICE_RANGES, List.lookup]; norm_num [int_mul])
        (by simp [PRICE_RANGES, List.lookup]; norm_num [int_mul])
  · obtain ⟨w, hmem, hw⟩ := pickCum_mem_pos WEEK_10_DISTRIBUTION
      ((randFloat s).1 * totalW WEEK_10_DISTRIBUTION)
      (by rw [totalW_week10, mul_one]; exact hr0)
      (by rw [totalW_week10, mul_one]; exact hr1)
    dsimp only [gen_one_item, choicesW]
    simp only [WEEK_10_DISTRIBUTION] at hmem ⊢
    simp only [List.mem_cons, List.not_mem_nil, or_false, Prod.mk.injEq] at hmem
    rcases hmem with ⟨hcat, _⟩ | ⟨hcat, _⟩ | ⟨hcat, _⟩ | ⟨hcat, _⟩ <;>
      rw [hcat] <;>
      exact randint_lt_randint _ _ _ _ _ _
        (by simp [PRICE_RANGES, List.lookup]; norm_num [int_mul])
        (by simp [PRICE_RANGES, List.lookup]; norm_num [int_mul])

/-- C1: for every generated item (any pools, any date, any category table,
any quota state, any ids, any outcome of the random source), the bids emitted
for it number exactly `item.num_bids`, all reference the item, exactly one
carries `is_winning_bid = 1`, and that one has the item's hammer price as its
amount and the item's buyer as its bidder. -/
theorem C1_bids_per_item (sellers buyers : List Customer) (auction_date : ℕ)
    (category_dist : List (String × ℚ)) (counts : String → ℕ)
    (item_id bid_id fee_id : ℕ) (s : RState) (st : ItemStep)
    (hst : st = (gen_one_item sellers buyers auction_date category_dist counts
      item_id bid_id fee_id s).1) :
    st.bids.length = st.item.num_bids ∧
    (∀ b ∈ st.bids, b.item_id = st.item.unique_id) ∧
    st.bids.countP (fun b => b.is_winning_bid == 1) = 1 ∧
    (∀ b ∈ st.bids, b.is_winning_bid = 1 →
      b.bid_amount = st.item.hammer ∧ b.bidder_id = st.item.buyer_id) := by
  subst hst
  refine ⟨?_, ?_, ?_, ?_⟩
  · dsimp only [gen_one_item]
    exact gen_bids_length _ _ _ _ _ _ _ _ _
  · intro b hb
    dsimp only [gen_one_item] at hb ⊢
    exact gen_bids_item_id _ _ _ _ _ _ _ _ _ b hb
  · dsimp only [gen_one_item]
    rw [gen_bids_winning_count]
    exact min_one_of_pos _ (randint_ge _ _ _)
  · intro b hb hwin
    dsimp only [gen_one_item] at hb ⊢
    exact gen_bids_winning_vals _ _ _ _ _ _ _ _ _ b hb hwin

/-- C1 witness: the concrete single-buyer, single-seller run. -/
theorem C1_bids_per_item_witness :
    ((gen_one_item [sellerA] [buyerA] 4 CATEGORY_DISTRIBUTION (fun _ => 0) 1 1 1
        ⟨streamC2, 0⟩).1.bids).length =
      (gen_one_item [sellerA] [buyerA] 4 CATEGORY_DISTRIBUTION (fun _ => 0) 1 1 1
        ⟨streamC2, 0⟩).1.item.num_bids :=
  (C1_bids_per_item [sellerA] [buyerA] 4 CATEGORY_DISTRIBUTION (fun _ => 0) 1 1 1
    ⟨streamC2, 0⟩ _ rfl).1

/-- C2 (amended): buyer's premium is ten percent of the hammer price rounded
DOWN (`int()` truncation, i.e. `hammer / 10`), not round-to-nearest;
`contract_price = hammer + buyers_premium` and `reserve_met = 1` exactly when
`hammer ≥ reserve_price` hold as claimed. -/
theorem C2_pricing (sellers buyers : List Customer) (auction_date : ℕ)
    (category_dist : List (String × ℚ)) (counts : String → ℕ)
    (item_id bid_id fee_id : ℕ) (s : RState) (st : ItemStep)
    (hst : st = (gen_one_item sellers buyers auction_date category_dist counts
      item_id bid_id fee_id s).1) :
    st.item.buyers_premium = st.item.hammer / 10 ∧
    st.item.contract_price = st.item.hammer + st.item.buyers_premium ∧
    (st.item.reserve_met = 1 ↔ st.item.reserve_price ≤ st.item.hammer) := by
  subst hst
  dsimp only [gen_one_item]
  refine ⟨int_mul_ten _, rfl, ?_⟩
  split_ifs with h
  · exact iff_of_true rfl h
  · constructor
    · intro h01
      exact h01.elim
    · intro hRH
      exact absurd hRH h

/-- C2 witness: the concrete run with hammer price 2006. -/
theorem C2_pricing_witness :
    (gen_one_item [sellerA] [buyerA] 4 CATEGORY_DISTRIBUTION (fun _ => 0) 1 1 1
        ⟨streamC2, 0⟩).1.item.buyers_premium =
      (gen_one_item [sellerA] [buyerA] 4 CATEGORY_DISTRIBUTION (fun _ => 0) 1 1 1
        ⟨streamC2, 0⟩).1.item.hammer / 10 :=
  (C2_pricing [sellerA] [buyerA] 4 CATEGORY_DISTRIBUTION (fun _ => 0) 1 1 1
    ⟨streamC2, 0⟩ _ rfl).1

/-- C2 counterexample: on the run reaching hammer price 2006 the code's
buyer's premium is 200 (truncation of 200.6), while round-to-nearest of ten
percent of the hammer price is 201. -/
theorem C2_cex :
    (gen_one_item [sellerA] [buyerA] 4 CATEGORY_DISTRIBUTION (fun _ => 0) 1 1 1
        ⟨streamC2, 0⟩).1.item.hammer = 2006 ∧
    ((gen_one_item [sellerA] [buyerA] 4 CATEGORY_DISTRIBUTION (fun _ => 0) 1 1 1
        ⟨streamC2, 0⟩).1.item.buyers_premium : ℤ) ≠
      round (((gen_one_item [sellerA] [buyerA] 4 CATEGORY_DISTRIBUTION (fun _ => 0) 1 1 1
        ⟨streamC2, 0⟩).1.item.hammer : ℚ) * (10 / 100)) := by
  have h1 : (gen_one_item [sellerA] [buyerA] 4 CATEGORY_DISTRIBUTION (fun _ => 0) 1 1 1
      ⟨streamC2, 0⟩).1.item.hammer = 2006 := by with_unfolding_all rfl
  have h2 : (gen_one_item [sellerA] [buyerA] 4 CATEGORY_DISTRIBUTION (fun _ => 0) 1 1 1
      ⟨streamC2, 0⟩).1.item.buyers_premium = 200 := by with_unfolding_all rfl
  refine ⟨h1, ?_⟩
  rw [h1, h2]
  norm_num [round_eq]

/-- C3 (amended): for every generated item and every outcome of the random
source, the bid amounts are strictly increasing up to but NOT including the
final winning bid: every bid before the last exceeds its predecessor, and the
last amount is forced to the hammer price, which can lie below its
predecessor. -/
theorem C3_bid_monotonicity (sellers buyers : List Customer) (auction_date : ℕ)
    (category_dist : List (String × ℚ)) (counts : String → ℕ)
    (item_id bid_id fee_id : ℕ) (s : RState) (st : ItemStep)
    (hst : st = (gen_one_item sellers buyers auction_date category_dist counts
      item_id bid_id fee_id s).1) :
    List.Chain' (· < ·) ((st.bids.map Bid.bid_amount).dropLast) ∧
    (st.bids.map Bid.bid_amount).getLast? = some st.item.hammer := by
  subst hst
  constructor
  · dsimp only [gen_one_item]
    exact (gen_bids_incr _ _ _ _ _ _ _ _ _).1
  · dsimp only [gen_one_item]
    exact gen_bids_last _ _ _ _ _ _ _ _ _
      (Nat.one_le_iff_ne_zero.mp (randint_ge _ _ _))

/-- C3 witness: the concrete two-bid run; the non-winning prefix is the
single amount 2600 and the last amount is the hammer price. -/
theorem C3_bid_monotonicity_witness :
    List.Chain' (· < ·)
      ((((gen_one_item [sellerA] [buyerA] 4 CATEGORY_DISTRIBUTION (fun _ => 0) 1 1 1
        ⟨streamC3, 0⟩).1.bids).map Bid.bid_amount).dropLast) ∧
    (((gen_one_item [sellerA] [buyerA] 4 CATEGORY_DISTRIBUTION (fun _ => 0) 1 1 1
        ⟨streamC3, 0⟩).1.bids).map Bid.bid_amount).getLast? =
      some (gen_one_item [sellerA] [buyerA] 4 CATEGORY_DISTRIBUTION (fun _ => 0) 1 1 1
        ⟨streamC3, 0⟩).1.item.hammer :=
  C3_bid_monotonicity [sellerA] [buyerA] 4 CATEGORY_DISTRIBUTION (fun _ => 0) 1 1 1
    ⟨streamC3, 0⟩ _ rfl

/-- C3 counterexample: a reachable item (starting bid 1600, hammer 2000, two
bids, first increment 1000) whose emitted amounts are [2600, 2000] — not
strictly increasing, because the forced final hammer amount lies below the
previous bid. -/
theorem C3_cex :
    ¬ List.Chain' (· < ·)
      (((gen_one_item [sellerA] [buyerA] 4 CATEGORY_DISTRIBUTION (fun _ => 0) 1 1 1
        ⟨streamC3, 0⟩).1.bids).map Bid.bid_amount) := by
  have h : ((gen_one_item [sellerA] [buyerA] 4 CATEGORY_DISTRIBUTION (fun _ => 0) 1 1 1
      ⟨streamC3, 0⟩).1.bids).map Bid.bid_amount = [2600, 2000] := by
    with_unfolding_all rfl
  rw [h]
  simp [List.chain'_cons]

/-- C9: with either of the two category tables in force, an item with at
least two bids has its first emitted bid equal to `starting_bid` plus an
increment in [100, 1000] (hence strictly above `starting_bid`); every
non-winning bid exceeds `starting_bid`; and a single-bid item's one bid has
the hammer price — which differs from `starting_bid` — as its amount. -/
theorem C9_first_last_bids (sellers buyers : List Customer) (auction_date : ℕ)
    (category_dist : List (String × ℚ))
    (hcd : category_dist = CATEGORY_DISTRIBUTION ∨ category_dist = WEEK_10_DISTRIBUTION)
    (counts : String → ℕ) (item_id bid_id fee_id : ℕ) (s : RState) (st : ItemStep)
    (hst : st = (gen_one_item sellers buyers auction_date category_dist counts
      item_id bid_id fee_id s).1) :
    (2 ≤ st.item.num_bids → ∃ inc, 100 ≤ inc ∧ inc ≤ 1000 ∧
      (st.bids.map Bid.bid_amount).head? = some (st.item.starting_bid + inc) ∧
      st.item.starting_bid < st.item.starting_bid + inc) ∧
    (∀ b ∈ st.bids, b.is_winning_bid ≠ 1 → st.item.starting_bid < b.bid_amount) ∧
    (st.item.num_bids = 1 →
      st.bids.map Bid.bid_amount = [st.item.hammer] ∧
      st.item.starting_bid ≠ st.item.hammer) := by
  subst hst
  refine ⟨?_, ?_, ?_⟩
  · intro h2
    dsimp only [gen_one_item] at h2 ⊢
    obtain ⟨inc, hi1, hi2, hi3⟩ := gen_bids_head _ _ _ _ _ _ _ _ _ h2
    exact ⟨inc, hi1, hi2, hi3, by omega⟩
  · intro b hb hnw
    dsimp only [gen_one_item] at hb ⊢
    exact gen_bids_nonwinning_gt _ _ _ _ _ _ _ _ _ b hb hnw
  · intro h1
    constructor
    · dsimp only [gen_one_item] at h1 ⊢
      rw [h1]
      exact gen_bids_map_one _ _ _ _ _ _ _ _
    · exact Nat.ne_of_lt (gen_one_item_starting_lt_hammer sellers buyers auction_date
        category_dist hcd counts item_id bid_id fee_id s)

/-- C9 witness: the concrete single-bid run (hammer 2006, starting bid
1000). -/
theorem C9_first_last_bids_witness :
    ((gen_one_item [sellerA] [buyerA] 4 CATEGORY_DISTRIBUTION (fun _ => 0) 1 1 1
        ⟨streamC2, 0⟩).1.bids).map Bid.bid_amount =
      [(gen_one_item [sellerA] [buyerA] 4 CATEGORY_DISTRIBUTION (fun _ => 0) 1 1 1
        ⟨streamC2, 0⟩).1.item.hammer] ∧
    (gen_one_item [sellerA] [buyerA] 4 CATEGORY_DISTRIBUTION (fun _ => 0) 1 1 1
        ⟨streamC2, 0⟩).1.item.starting_bid ≠
      (gen_one_item [sellerA] [buyerA] 4 CATEGORY_DISTRIBUTION (fun _ => 0) 1 1 1
        ⟨streamC2, 0⟩).1.item.hammer :=
  (C9_first_last_bids [sellerA] [buyerA] 4 CATEGORY_DISTRIBUTION (Or.inl rfl)
    (fun _ => 0) 1 1 1 ⟨streamC2, 0⟩ _ rfl).2.2 (by with_unfolding_all rfl)

theorem remaining_snd_eq (counts : String → ℕ) :
    ((remaining_states counts).map Prod.snd) =
      STATE_DISTRIBUTION.map (fun p => p.2 - counts p.1) := by
  simp [remaining_states]

theorem state_keys_nodup : (STATE_DISTRIBUTION.map Prod.fst).Nodup := by decide

/-- C5: at any point of the run (any per-state counts) and for any draw, a
state whose generated-so-far count has reached its target has remaining
weight 0 in the quota table and is never selected by the quota-phase choice,
and the sampler falls back to the unconstrained `pick_weighted_state`
distribution exactly when every state's remaining quota is 0. -/
theorem C5_quota_sampler (counts : String → ℕ) (s : RState) :
    ((((remaining_states counts).map Prod.snd).sum = 0) ↔
      ∀ p ∈ STATE_DISTRIBUTION, p.2 ≤ counts p.1) ∧
    (∀ p ∈ STATE_DISTRIBUTION, p.2 ≤ counts p.1 → (p.1, 0) ∈ remaining_states counts) ∧
    (((remaining_states counts).map Prod.snd).sum = 0 →
      pick_state counts s = pick_weighted_state s) ∧
    (((remaining_states counts).map Prod.snd).sum ≠ 0 →
      ∀ p ∈ STATE_DISTRIBUTION, p.2 ≤ counts p.1 → (pick_state counts s).1 ≠ p.1) := by
  refine ⟨?_, ?_, ?_, ?_⟩
  · rw [remaining_snd_eq, List.sum_eq_zero_iff]
    simp only [List.mem_map, forall_exists_index, and_imp, Prod.forall]
    constructor
    · intro h a b hab
      have := h (b - counts a) a b hab rfl
      omega
    · intro h x a b hab hx
      have := h a b hab
      omega
  · intro p hp hle
    exact List.mem_map.mpr ⟨p, hp, by simp [Nat.sub_eq_zero_of_le hle]⟩
  · intro h
    rw [pick_state, if_pos h]
  · intro hne p hp hle heq
    rw [pick_state, if_neg hne] at heq
    dsimp only [choicesW] at heq
    have htot : totalW ((remaining_states counts).map fun q => (q.1, ((q.2 : ℕ) : ℚ))) =
        ((((remaining_states counts).map Prod.snd).sum : ℕ) : ℚ) := by
      simp only [totalW, List.map_map, Nat.cast_list_sum]
      rfl
    have hpos : (0 : ℚ) < totalW ((remaining_states counts).map fun q => (q.1, ((q.2 : ℕ) : ℚ))) := by
      rw [htot]
      exact_mod_cast Nat.pos_of_ne_zero hne
    obtain ⟨w, hmem, hw⟩ := pickCum_mem_pos
      ((remaining_states counts).map fun q => (q.1, ((q.2 : ℕ) : ℚ)))
      ((randFloat s).1 * totalW ((remaining_states counts).map fun q => (q.1, ((q.2 : ℕ) : ℚ))))
      (mul_nonneg (randFloat_nonneg s) (le_of_lt hpos))
      (by
        calc (randFloat s).1 * totalW ((remaining_states counts).map fun q => (q.1, ((q.2 : ℕ) : ℚ)))
            < 1 * totalW ((remaining_states counts).map fun q => (q.1, ((q.2 : ℕ) : ℚ))) :=
              mul_lt_mul_of_pos_right (randFloat_lt_one s) hpos
          _ = _ := one_mul _)
    rw [heq] at hmem
    rcases List.mem_map.mp hmem with ⟨q, hq, hqe⟩
    rcases List.mem_map.mp hq with ⟨q', hq', hq'e⟩
    rw [← hq'e] at hqe
    have hk1 : q'.1 = p.1 := by
      have := congrArg Prod.fst hqe
      simpa using this
    have hkw : ((q'.2 - counts q'.1 : ℕ) : ℚ) = w := by
      have := congrArg Prod.snd hqe
      simpa using this
    have hq'p : q' = p :=
      List.inj_on_of_nodup_map state_keys_nodup hq' hp hk1
  -- with q' = p the remaining weight is target - counts = 0, contradicting hw
    rw [hq'p] at hkw
    rw [Nat.sub_eq_zero_of_le hle] at hkw
    rw [← hkw] at hw
    simp at hw

/-- C5 witness: with every state's count at 4000 all quotas are exhausted and
the sampler takes the unconstrained fallback. -/
theorem C5_quota_sampler_witness :
    pick_state (fun _ => 4000) ⟨fun _ => 0, 0⟩ = pick_weighted_state ⟨fun _ => 0, 0⟩ :=
  (C5_quota_sampler (fun _ => 4000) ⟨fun _ => 0, 0⟩).2.2.1 (by decide)

/-- C6: the whole pipeline (customers, then items, bids and fees) is a
deterministic function of the seed and the input sizes: two runs with the
same seed-determined stream and the same pool sizes produce identical record
lists.  In the embedding every random draw is read off the seed's stream in
a fixed order, so equal seeds and sizes give equal outputs. -/
theorem C6_determinism (seedStream : ℕ → ℕ → ℕ)
    (seed1 seed2 nb1 ns1 nt1 nb2 ns2 nt2 : ℕ)
    (hseed : seed1 = seed2) (hb : nb1 = nb2) (hs : ns1 = ns2) (ht : nt1 = nt2) :
    run_with_seed seedStream seed1 nb1 ns1 nt1 =
      run_with_seed seedStream seed2 nb2 ns2 nt2 := by
  rw [hseed, hb, hs, ht]

/-- C6 witness: the fixed seed 42 with one buyer, one seller and one
both-role customer. -/
theorem C6_determinism_witness :
    run_with_seed (fun seed i => seed + i) 42 1 1 1 =
      run_with_seed (fun seed i => seed + i) 42 1 1 1 :=
  C6_determinism (fun seed i => seed + i) 42 42 1 1 1 1 1 1 rfl rfl rfl rfl

end AuctionGen
